import Mathlib

/-!
Shallow embedding of the Finansly technical-indicator and signal-decision
engine (trading_strategy.py, price_tracker.py, paypal_transfer_calculator.py)
and proofs about it.

Python floats are modelled as rationals (ℚ); a Python `None`-or-float result
becomes `Option ℚ`.  Python's negative slice `xs[-n:]` is modelled by
`sliceLast` (note the Python quirk that `xs[-0:]` is the whole list).
Python truthiness of an optional float (`if x:`) is `x` being some nonzero
value; truthiness of a list is it being nonempty.  The file-backed state
(price-history JSON, daily-notification JSON) is modelled by explicit state
passing: each stateful function takes the loaded state and returns the saved
state.  `datetime.now()` timestamps are modelled as natural numbers (seconds)
carried as data; local wall-clock inputs (`now_local.hour`,
`now_local.strftime` dates) are passed in explicitly.
-/

set_option maxRecDepth 100000
set_option maxHeartbeats 1000000

namespace Finansly

/-- Python `xs[-n:]`: the last `n` elements, except that `n = 0` yields the
whole list (in Python `xs[-0:]` is `xs[0:]`). -/
def sliceLast (l : List ℚ) (n : ℕ) : List ℚ :=
  if n = 0 then l else l.drop (l.length - n)

/-- Python `min(xs)` over a float list: `none` on the empty list (where Python
raises), otherwise the least element. -/
def listMin : List ℚ → Option ℚ
  | [] => none
  | x :: xs => some (xs.foldl min x)

/-- Python `max(xs)` over a float list: `none` on the empty list (where Python
raises), otherwise the greatest element. -/
def listMax : List ℚ → Option ℚ
  | [] => none
  | x :: xs => some (xs.foldl max x)

/-- Embedding of trading_strategy.calculate_sma: mean of the last `period`
prices, `none` if there are fewer than `period` prices. -/
def calculate_sma (prices : List ℚ) (period : ℕ) : Option ℚ :=
  if prices.length < period then none
  else some ((sliceLast prices period).sum / period)

/-- Embedding of trading_strategy.calculate_ema: seed with the SMA of the
first `period` prices, then fold `ema ← price·k + ema·(1−k)` with
`k = 2/(period+1)` over the remaining prices in order; `none` if there are
fewer than `period` prices. -/
def calculate_ema (prices : List ℚ) (period : ℕ) : Option ℚ :=
  if prices.length < period then none
  else
    (calculate_sma (prices.take period) period).map (fun seed =>
      let multiplier : ℚ := 2 / (period + 1)
      (prices.drop period).foldl
        (fun ema price => price * multiplier + ema * (1 - multiplier)) seed)

/-- Successive differences `prices[i] − prices[i−1]` of a price series. -/
def deltas (prices : List ℚ) : List ℚ :=
  (prices.zip prices.tail).map (fun p => p.2 - p.1)

/-- The changes examined by the loop of trading_strategy.calculate_rsi
`for i in range(len(prices) − period, len(prices))` (skipping `i == 0`):
when `len(prices) ≥ period + 1` the skip never fires and these are exactly
the last `period` successive differences. -/
def rsiChanges (prices : List ℚ) (period : ℕ) : List ℚ :=
  (deltas prices).drop ((deltas prices).length - period)

/-- The `max_abs_change` accumulated by the loop of
trading_strategy.calculate_rsi, starting from `0.0`. -/
def max_abs_change (prices : List ℚ) (period : ℕ) : ℚ :=
  (rsiChanges prices period).foldl (fun m c => max m |c|) 0

/-- Round to the nearest integer, ties to the even integer (Python 3 `round`
on exact values). -/
def roundHalfEven (q : ℚ) : ℤ :=
  if q - ⌊q⌋ < 1/2 then ⌊q⌋
  else if q - ⌊q⌋ > 1/2 then ⌊q⌋ + 1
  else if Even ⌊q⌋ then ⌊q⌋ else ⌊q⌋ + 1

/-- Python `round(q, 2)`. -/
def round2 (q : ℚ) : ℚ := (roundHalfEven (q * 100) : ℚ) / 100

/-- The `gains` list collected by the loop of calculate_rsi: a change `> 0` is
appended as is, otherwise `0` is appended. -/
def rsiGains (prices : List ℚ) (period : ℕ) : List ℚ :=
  (rsiChanges prices period).map (fun c => if c > 0 then c else 0)

/-- The `losses` list collected by the loop of calculate_rsi: for a change `> 0`
a `0` is appended, otherwise the absolute value of the change. -/
def rsiLosses (prices : List ℚ) (period : ℕ) : List ℚ :=
  (rsiChanges prices period).map (fun c => if c > 0 then 0 else |c|)

/-- The `avg_gain = sum(gains[-period:]) / period` of calculate_rsi. -/
def avg_gain (prices : List ℚ) (period : ℕ) : ℚ :=
  (sliceLast (rsiGains prices period) period).sum / period

/-- The `avg_loss = sum(losses[-period:]) / period` of calculate_rsi. -/
def avg_loss (prices : List ℚ) (period : ℕ) : ℚ :=
  (sliceLast (rsiLosses prices period) period).sum / period

/-- Embedding of trading_strategy.calculate_rsi.  With
`len(prices) ≥ period + 1` the `i == 0` skip of the loop never fires, so `gains`
has exactly `period` entries and the `len(gains) < period` guard passes.
Flat-market guard: if the latest price is nonzero and the largest absolute
change is below 0.05% of its absolute value, return 50.  Else
`avg_loss == 0` returns 100, otherwise `100 − 100/(1 + avg_gain/avg_loss)`
rounded to two decimals. -/
def calculate_rsi (prices : List ℚ) (period : ℕ) : Option ℚ :=
  if prices.length < period + 1 then none
  else if (rsiGains prices period).length < period then none
  else if prices.getLastD 0 ≠ 0 ∧
      max_abs_change prices period / |prices.getLastD 0| < 0.0005 then
    some 50
  else if avg_loss prices period = 0 then
    some 100
  else
    some (round2 (100 - 100 / (1 + avg_gain prices period / avg_loss prices period)))

/-- Embedding of trading_strategy.find_support_resistance: `(min, max)` over
the last `lookback` prices, `(none, none)` if there are fewer than
`lookback` prices. -/
def find_support_resistance (prices : List ℚ) (lookback : ℕ) :
    Option ℚ × Option ℚ :=
  if prices.length < lookback then (none, none)
  else
    let recent := sliceLast prices lookback
    (listMin recent, listMax recent)

inductive Trend
  | bullish
  | bearish
deriving DecidableEq

/-- Embedding of trading_strategy.analyze_trend: compare the short and long
SMAs; `none` when either is undefined or they are equal. -/
def analyze_trend (prices : List ℚ) (short_period long_period : ℕ) :
    Option Trend :=
  match calculate_sma prices short_period, calculate_sma prices long_period with
  | some short_ma, some long_ma =>
      if short_ma > long_ma then some .bullish
      else if short_ma < long_ma then some .bearish
      else none
  | _, _ => none

inductive Signal
  | BUY
  | SELL
deriving DecidableEq

/-- The `buy_signals`/`sell_signals` counters of the analysis dict returned
by get_trading_signal (absent keys read back as 0 via `.get(_, 0)`). -/
structure Analysis where
  buy_signals : ℕ
  sell_signals : ℕ
deriving DecidableEq

/-- Signal 1 (moving-average crossover) of get_trading_signal, as a
`(buy, sell)` vote increment.  The Python guard is `if sma_10 and sma_30:`,
i.e. both present AND nonzero (float truthiness). -/
def maVote : Option ℚ → Option ℚ → ℕ × ℕ
  | some sma_10, some sma_30 =>
      if sma_10 ≠ 0 ∧ sma_30 ≠ 0 then
        if sma_10 > sma_30 then (1, 0)
        else if sma_10 < sma_30 then (0, 1)
        else (0, 0)
      else (0, 0)
  | _, _ => (0, 0)

/-- Signal 2 (RSI) of get_trading_signal.  The Python guard is
`if rsi is not None:` (presence only, no truthiness). -/
def rsiVote : Option ℚ → ℕ × ℕ
  | none => (0, 0)
  | some rsi =>
      if rsi < 30 then (2, 0)
      else if rsi > 70 then (0, 2)
      else if rsi < 40 then (1, 0)
      else if rsi > 60 then (0, 1)
      else (0, 0)

/-- Signal 3 (support/resistance) of get_trading_signal.  The Python guard is
`if support and resistance:`, i.e. both present AND nonzero. -/
def srVote (current_price : ℚ) : Option ℚ → Option ℚ → ℕ × ℕ
  | some support, some resistance =>
      if support ≠ 0 ∧ resistance ≠ 0 then
        let price_range := resistance - support
        if price_range > 0 then
          let price_position := (current_price - support) / price_range
          if price_position < 0.2 then (1, 0)
          else if price_position > 0.8 then (0, 1)
          else (0, 0)
        else (0, 0)
      else (0, 0)
  | _, _ => (0, 0)

/-- Signal 4 (trend) of get_trading_signal. -/
def trendVote : Option Trend → ℕ × ℕ
  | some .bullish => (1, 0)
  | some .bearish => (0, 1)
  | none => (0, 0)

/-- The total `(buy_signals, sell_signals)` accumulated by
get_trading_signal over its four indicator checks. -/
def tallyVotes (prices : List ℚ) (current_price : ℚ) : ℕ × ℕ :=
  let v1 := maVote (calculate_sma prices 10) (calculate_sma prices 30)
  let v2 := rsiVote (calculate_rsi prices 14)
  let sr := find_support_resistance prices 20
  let v3 := srVote current_price sr.1 sr.2
  let v4 := trendVote (analyze_trend prices 10 30)
  (v1.1 + v2.1 + v3.1 + v4.1, v1.2 + v2.2 + v3.2 + v4.2)

def MIN_CONFIRMATIONS : ℕ := 2

/-- Embedding of trading_strategy.get_trading_signal: with insufficient
history no signal is produced (and the analysis dict carries no vote
counters, read back as 0); otherwise tally the four indicator votes and
decide BUY first (`buy_signals ≥ MIN_CONFIRMATIONS`), then SELL, else no
signal. -/
def get_trading_signal (prices : List ℚ) (current_price : ℚ)
    (min_history : ℕ) : Option Signal × Analysis :=
  if prices.length < min_history then (none, ⟨0, 0⟩)
  else
    let votes := tallyVotes prices current_price
    let analysis : Analysis := ⟨votes.1, votes.2⟩
    if votes.1 ≥ MIN_CONFIRMATIONS then (some .BUY, analysis)
    else if votes.2 ≥ MIN_CONFIRMATIONS then (some .SELL, analysis)
    else (none, analysis)

/-! Price-tracker state (price_tracker.py).  A price-history entry is a
`{timestamp, price}` record; the JSON store for one asset is a list of
entries. -/

structure PriceEntry where
  timestamp : ℕ
  price : ℚ
deriving DecidableEq

def MAX_HISTORY_ENTRIES : ℕ := 200

def MIN_HISTORY_FOR_SIGNALS : ℕ := 30

/-- Embedding of price_tracker.MIN_VOLATILITY_RATIO (0.5% minimum range over
the lookback window). -/
def MIN_VOLATILITY : ℚ := 0.005

/-- Embedding of price_tracker.add_price_entry for one asset: append the new
entry, then keep only the last MAX_HISTORY_ENTRIES entries. -/
def add_price_entry (history : List PriceEntry) (e : PriceEntry) :
    List PriceEntry :=
  let h := history ++ [e]
  if h.length > MAX_HISTORY_ENTRIES then h.drop (h.length - MAX_HISTORY_ENTRIES)
  else h

/-- Embedding of price_tracker.get_price_history_list: the stored prices of
one asset, in insertion order. -/
def get_price_history_list (history : List PriceEntry) : List ℚ :=
  history.map PriceEntry.price

/-- The volatility filter inside price_tracker._get_signal_candidate: the
market is considered flat (and the signal suppressed) when support and
resistance over lookback 20 exist, `resistance > support`, the mid price is
positive, and `(resistance − support) / mid < MIN_VOLATILITY`. -/
def volatilityGateFires (price_history : List ℚ) : Bool :=
  match find_support_resistance price_history 20 with
  | (some support, some resistance) =>
      if resistance > support then
        let mid_price := (support + resistance) / 2
        if mid_price > 0 then
          let price_range := resistance - support
          if price_range / mid_price < MIN_VOLATILITY then true else false
        else false
      else false
  | _ => false

/-- The series-level core of price_tracker._get_signal_candidate, after the
current price has been appended to the history: with insufficient history or
a flat market there is no candidate, otherwise the candidate carries the
trading signal (the candidate dict exists exactly when the signal is not
falsy, and `"BUY"`/`"SELL"` are truthy strings). -/
def getSignalCandidate (price_history : List ℚ) (current_price : ℚ) :
    Option Signal :=
  if price_history.length < MIN_HISTORY_FOR_SIGNALS then none
  else if volatilityGateFires price_history then none
  else (get_trading_signal price_history current_price MIN_HISTORY_FOR_SIGNALS).1

/-- Embedding of price_tracker.check_and_notify for one asset, with the
file-backed history made explicit: the new entry is appended (and the store
trimmed), and a Telegram message is sent exactly when a signal candidate
exists.  The returned pair is (saved history, whether a message was sent).
No other state exists: the code keeps no record of past emissions. -/
def checkAndNotifyStep (history : List PriceEntry) (t : ℕ)
    (current_price : ℚ) : List PriceEntry × Bool :=
  let h := add_price_entry history ⟨t, current_price⟩
  (h, (getSignalCandidate (get_price_history_list h) current_price).isSome)

/-! Daily-digest gating (price_tracker.py). -/

def DAILY_NOTIFICATION_HOUR : ℕ := 18

/-- Embedding of price_tracker.should_send_daily_notification: true when the
local hour has reached DAILY_NOTIFICATION_HOUR and the recorded
`last_sent_date` (if any) differs from the date of today string. -/
def should_send_daily_notification (hour : ℕ) (last_sent_date : Option String)
    (today : String) : Bool :=
  if hour < DAILY_NOTIFICATION_HOUR then false
  else if last_sent_date = some today then false else true

/-- The daily-digest tail of price_tracker.check_all_prices, with the
file-backed tracking state made explicit: if the gate opens, the summary is
sent, and only a successful send records the date of today
(record_daily_notification).  The returned pair is (saved `last_sent_date`,
whether a send was attempted). -/
def dailyDigestStep (hour : ℕ) (today : String) (send_ok : Bool)
    (last_sent_date : Option String) : Option String × Bool :=
  if should_send_daily_notification hour last_sent_date today then
    (if send_ok then some today else last_sent_date, true)
  else (last_sent_date, false)

/-! Transfer forecaster (paypal_transfer_calculator.py). -/

def MANUAL_TRANSFER_TAX : ℚ := 150

/-- Embedding of paypal_transfer_calculator.estimate_future_rate, with the
asset's stored prices passed as a plain list (the source reads
`p["price"]` off each history entry). -/
def estimate_future_rate (current_rate : ℚ) (price_history : List ℚ)
    (days_ahead : ℕ) : ℚ :=
  if price_history.length < 7 then current_rate
  else
    let prices := sliceLast price_history (min 7 price_history.length)
    if 2 ≤ prices.length then
      let daily_changes := (prices.zip prices.tail).map (fun p => p.2 - p.1)
      let avg_daily_change :=
        if daily_changes ≠ [] then daily_changes.sum / daily_changes.length
        else 0
      max (current_rate + avg_daily_change * days_ahead * 0.5)
        (current_rate * 0.95)
    else current_rate

inductive Recommendation
  | MANUAL_TRANSFER
  | WAIT_FOR_AUTO
  | EITHER
deriving DecidableEq

/-- The numeric fields of the decision dict built by
paypal_transfer_calculator.calculate_paypal_transfer (the date fields and
message strings are presentation only and omitted). -/
structure TransferDecision where
  recommendation : Recommendation
  current_rate : ℚ
  estimated_future_rate : ℚ
  current_value_egp : ℚ
  current_value_after_tax : ℚ
  future_value_egp : ℚ
  future_value_after_tax : ℚ
  difference : ℚ
deriving DecidableEq

/-- Embedding of paypal_transfer_calculator.calculate_paypal_transfer, with
the fetched GBP rate and the stored GBP history passed explicitly
(`current_rate = none` models an unavailable rate; the Python guard
`if not current_rate:` also rejects a rate of exactly 0 by float
truthiness).  `days_until` is the day count from
calculate_days_until_auto_transfer. -/
def calculate_paypal_transfer (gbp_amount : ℚ) (current_rate : Option ℚ)
    (gbp_history : List ℚ) (days_until : ℕ) : Option TransferDecision :=
  if gbp_amount ≤ 0 then none
  else
    match current_rate with
    | none => none
    | some rate =>
        if rate = 0 then none
        else
          let current_value_egp := gbp_amount * rate
          let current_value_after_tax := current_value_egp - MANUAL_TRANSFER_TAX
          let estimated_future_rate :=
            if gbp_history ≠ [] then
              estimate_future_rate rate gbp_history days_until
            else rate * 0.98
          let future_value_egp := gbp_amount * estimated_future_rate
          let future_value_after_tax := future_value_egp
          let difference := current_value_after_tax - future_value_after_tax
          let recommendation :=
            if difference > 50 then Recommendation.MANUAL_TRANSFER
            else if difference < -50 then Recommendation.WAIT_FOR_AUTO
            else Recommendation.EITHER
          some {
            recommendation := recommendation
            current_rate := rate
            estimated_future_rate := estimated_future_rate
            current_value_egp := current_value_egp
            current_value_after_tax := current_value_after_tax
            future_value_egp := future_value_egp
            future_value_after_tax := future_value_after_tax
            difference := difference }

/-- Formalisation of the exact words of the spec for EMA ("seed = SMA of the first
`period` values; then, iterating forward through the remaining values in
chronological order, `ema ← price·k + ema·(1−k)` with `k = 2/(period+1)`"),
for comparison with `calculate_ema`. -/
def ema_spec (prices : List ℚ) (period : ℕ) : ℚ :=
  let k : ℚ := 2 / (period + 1)
  (prices.drop period).foldl (fun ema price => price * k + ema * (1 - k))
    ((prices.take period).sum / period)

/-! Concrete inputs used by the scenario conjuncts, counterexamples and
witnesses. -/

/-- Scenario A of the spec: the 31 ascending integers 100…130. -/
def scenA : List ℚ := [100, 101, 102, 103, 104, 105, 106, 107, 108, 109, 110, 111, 112, 113, 114, 115, 116, 117, 118, 119, 120, 121, 122, 123, 124, 125, 126, 127, 128, 129, 130]

/-- A stored history of 30 entries (timestamps 0…29 s, prices 100…129). -/
def c2hist : List PriceEntry := [⟨0, 100⟩, ⟨1, 101⟩, ⟨2, 102⟩, ⟨3, 103⟩, ⟨4, 104⟩, ⟨5, 105⟩, ⟨6, 106⟩, ⟨7, 107⟩, ⟨8, 108⟩, ⟨9, 109⟩, ⟨10, 110⟩, ⟨11, 111⟩, ⟨12, 112⟩, ⟨13, 113⟩, ⟨14, 114⟩, ⟨15, 115⟩, ⟨16, 116⟩, ⟨17, 117⟩, ⟨18, 118⟩, ⟨19, 119⟩, ⟨20, 120⟩, ⟨21, 121⟩, ⟨22, 122⟩, ⟨23, 123⟩, ⟨24, 124⟩, ⟨25, 125⟩, ⟨26, 126⟩, ⟨27, 127⟩, ⟨28, 128⟩, ⟨29, 129⟩]

/-- Fifteen prices rising by 0.001 each step: every delta is a gain, yet all
deltas are below 0.05% of the latest price. -/
def cex3 : List ℚ := [100, 100001/1000, 100002/1000, 100003/1000, 100004/1000, 100005/1000, 100006/1000, 100007/1000, 100008/1000, 100009/1000, 100010/1000, 100011/1000, 100012/1000, 100013/1000, 100014/1000]

/-- Thirty negative prices: twenty at −100.001 then ten at −100.  The range
is tiny but the mid price is negative, so the volatility gate is skipped. -/
def cex4 : List ℚ := [-100001/1000, -100001/1000, -100001/1000, -100001/1000, -100001/1000, -100001/1000, -100001/1000, -100001/1000, -100001/1000, -100001/1000, -100001/1000, -100001/1000, -100001/1000, -100001/1000, -100001/1000, -100001/1000, -100001/1000, -100001/1000, -100001/1000, -100001/1000, -100, -100, -100, -100, -100, -100, -100, -100, -100, -100]

/-- Thirty positive prices: twenty-nine at 100 then one at 100.2: a flat
market with ratio 2/1001 < 0.005. -/
def w4 : List ℚ := [100, 100, 100, 100, 100, 100, 100, 100, 100, 100, 100, 100, 100, 100, 100, 100, 100, 100, 100, 100, 100, 100, 100, 100, 100, 100, 100, 100, 100, 501/5]

/-- Thirty descending prices 29…0: the minimum of the last 20 values is 0. -/
def sDesc : List ℚ := [29, 28, 27, 26, 25, 24, 23, 22, 21, 20, 19, 18, 17, 16, 15, 14, 13, 12, 11, 10, 9, 8, 7, 6, 5, 4, 3, 2, 1, 0]

/-- Fifteen prices rising by a millionth each step and ending exactly at 0:
the flat-market guard is skipped because the latest price is 0. -/
def zcex : List ℚ := [-14/1000000, -13/1000000, -12/1000000, -11/1000000, -10/1000000, -9/1000000, -8/1000000, -7/1000000, -6/1000000, -5/1000000, -4/1000000, -3/1000000, -2/1000000, -1/1000000, 0]

/-- The same fifteen-step rise shifted to end at 1: now the flat-market guard
fires. -/
def z1cex : List ℚ := [999986/1000000, 999987/1000000, 999988/1000000, 999989/1000000, 999990/1000000, 999991/1000000, 999992/1000000, 999993/1000000, 999994/1000000, 999995/1000000, 999996/1000000, 999997/1000000, 999998/1000000, 999999/1000000, 1]

/-- Scenario C of the spec: 205 sequential price points. -/
def scenC : List PriceEntry := (List.range 205).map (fun i => ⟨i, i⟩)

/-- Fifteen ascending integer prices: a strong up-move. -/
def w3 : List ℚ := [1, 2, 3, 4, 5, 6, 7, 8, 9, 10, 11, 12, 13, 14, 15]

/-! Helper lemmas. -/

theorem sliceLast_of_length_eq {l : List ℚ} {n : ℕ} (h : l.length = n) :
    sliceLast l n = l := by
  unfold sliceLast
  split
  · rfl
  · simp [h]

theorem le_foldl_max (l : List ℚ) (a : ℚ) :
    a ≤ l.foldl (fun m c => max m |c|) a := by
  induction l generalizing a with
  | nil => exact le_refl a
  | cons c l ih =>
      exact le_trans (le_max_left a |c|) (ih (max a |c|))

theorem roundHalfEven_bounds (q : ℚ) :
    (⌊q⌋ : ℤ) ≤ roundHalfEven q ∧ roundHalfEven q ≤ ⌊q⌋ + 1 := by
  unfold roundHalfEven
  split
  · omega
  · split
    · omega
    · split <;> omega

theorem round2_bounds {q : ℚ} (h0 : 0 ≤ q) (h1 : q < 100) :
    0 ≤ round2 q ∧ round2 q ≤ 100 := by
  obtain ⟨hl, hr⟩ := roundHalfEven_bounds (q * 100)
  have hf0 : (0 : ℤ) ≤ ⌊q * 100⌋ := Int.floor_nonneg.mpr (by positivity)
  have hf1 : ⌊q * 100⌋ < 10000 := by
    rw [Int.floor_lt]
    push_cast
    nlinarith
  have hz : (0 : ℤ) ≤ roundHalfEven (q * 100) := le_trans hf0 hl
  have hz2 : roundHalfEven (q * 100) ≤ 10000 := by omega
  unfold round2
  constructor
  · apply div_nonneg _ (by norm_num)
    exact_mod_cast hz
  · rw [div_le_iff (by norm_num : (0:ℚ) < 100)]
    calc ((roundHalfEven (q * 100) : ℚ)) ≤ (10000 : ℚ) := by exact_mod_cast hz2
    _ = 100 * 100 := by norm_num

theorem deltas_length (l : List ℚ) : (deltas l).length = l.length - 1 := by
  simp only [deltas, List.length_map, List.length_zip, List.length_tail]
  omega

theorem rsiChanges_length {prices : List ℚ} {period : ℕ}
    (h : period + 1 ≤ prices.length) :
    (rsiChanges prices period).length = period := by
  simp only [rsiChanges, List.length_drop, deltas_length]
  omega

theorem mem_of_mem_sliceLast {l : List ℚ} {n : ℕ} {x : ℚ}
    (h : x ∈ sliceLast l n) : x ∈ l := by
  unfold sliceLast at h
  split at h
  · exact h
  · exact List.mem_of_mem_drop h

theorem add_price_entry_eq_drop (history : List PriceEntry) (e : PriceEntry) :
    add_price_entry history e =
      (history ++ [e]).drop ((history ++ [e]).length - MAX_HISTORY_ENTRIES) := by
  unfold add_price_entry
  dsimp only
  split
  · rfl
  · next h =>
      rw [Nat.sub_eq_zero_of_le (Nat.le_of_not_lt h), List.drop_zero]

theorem foldl_add_price_entry (es : List PriceEntry) (h : List PriceEntry)
    (hh : h.length ≤ MAX_HISTORY_ENTRIES) :
    es.foldl add_price_entry h =
      (h ++ es).drop ((h ++ es).length - MAX_HISTORY_ENTRIES) := by
  induction es generalizing h with
  | nil =>
      simp only [List.foldl_nil, List.append_nil]
      rw [Nat.sub_eq_zero_of_le hh, List.drop_zero]
  | cons e es ih =>
      have hlen : (add_price_entry h e).length ≤ MAX_HISTORY_ENTRIES := by
        rw [add_price_entry_eq_drop]
        simp only [List.length_drop]
        omega
      rw [List.foldl_cons, ih _ hlen, add_price_entry_eq_drop]
      have ha : (h ++ [e]).length - MAX_HISTORY_ENTRIES ≤ (h ++ [e]).length :=
        Nat.sub_le _ _
      rw [← List.drop_append_of_le_length ha, List.drop_drop, List.length_drop,
        List.append_assoc, List.singleton_append]
      congr 1
      simp only [List.length_append, List.length_cons, List.length_nil]
      omega

theorem get_trading_signal_eq (prices : List ℚ) (cp : ℚ) (mh : ℕ)
    (h : ¬ (prices.length < mh)) :
    get_trading_signal prices cp mh =
      ((if 2 ≤ (tallyVotes prices cp).1 then some Signal.BUY
        else if 2 ≤ (tallyVotes prices cp).2 then some Signal.SELL else none),
       ⟨(tallyVotes prices cp).1, (tallyVotes prices cp).2⟩) := by
  by_cases hb : 2 ≤ (tallyVotes prices cp).1
  · simp [get_trading_signal, MIN_CONFIRMATIONS, h, hb]
  · by_cases hs : 2 ≤ (tallyVotes prices cp).2
    · simp [get_trading_signal, MIN_CONFIRMATIONS, h, hb, hs]
    · simp [get_trading_signal, MIN_CONFIRMATIONS, h, hb, hs]

theorem scenA_signal : get_trading_signal scenA 130 30 = (some .BUY, ⟨2, 3⟩) := by
  norm_num [scenA, get_trading_signal, tallyVotes, maVote, rsiVote, srVote,
    trendVote, calculate_sma, calculate_rsi, rsiGains, rsiLosses, avg_gain,
    avg_loss, find_support_resistance, analyze_trend, sliceLast, deltas,
    rsiChanges, max_abs_change, MIN_CONFIRMATIONS, listMin, listMax, min_def,
    max_def, round2, roundHalfEven]

/-! Claim theorems. -/

/-- C1: for every price series with at least 30 points, get_trading_signal
checks buy votes first: `buy_signals ≥ 2` yields BUY even when
`sell_signals > buy_signals`; only with `buy_signals < 2` and
`sell_signals ≥ 2` is the decision SELL; otherwise no signal.  On the series
100…130 with current price 130 the votes are buy = 2, sell = 3 and the
decision is BUY. -/
theorem buy_precedence_and_scenarioA (prices : List ℚ) (current_price : ℚ)
    (h : 30 ≤ prices.length) :
    (2 ≤ (get_trading_signal prices current_price 30).2.buy_signals →
      (get_trading_signal prices current_price 30).1 = some Signal.BUY) ∧
    ((get_trading_signal prices current_price 30).2.buy_signals < 2 →
      2 ≤ (get_trading_signal prices current_price 30).2.sell_signals →
      (get_trading_signal prices current_price 30).1 = some Signal.SELL) ∧
    ((get_trading_signal prices current_price 30).2.buy_signals < 2 →
      (get_trading_signal prices current_price 30).2.sell_signals < 2 →
      (get_trading_signal prices current_price 30).1 = none) ∧
    get_trading_signal scenA 130 30 = (some Signal.BUY, ⟨2, 3⟩) := by
  have hn : ¬ (prices.length < 30) := by omega
  rw [get_trading_signal_eq prices current_price 30 hn]
  refine ⟨?_, ?_, ?_, scenA_signal⟩
  · intro h2
    simp only at h2 ⊢
    rw [if_pos h2]
  · intro hlt hs
    simp only at hlt hs ⊢
    rw [if_neg (by omega), if_pos hs]
  · intro hlt hs
    simp only at hlt hs ⊢
    rw [if_neg (by omega), if_neg (by omega)]

/-- C1 witness: the precedence theorem applied to the concrete scenario-A
series. -/
theorem buy_precedence_and_scenarioA_witness :
    (2 ≤ (get_trading_signal scenA 130 30).2.buy_signals →
      (get_trading_signal scenA 130 30).1 = some Signal.BUY) ∧
    ((get_trading_signal scenA 130 30).2.buy_signals < 2 →
      2 ≤ (get_trading_signal scenA 130 30).2.sell_signals →
      (get_trading_signal scenA 130 30).1 = some Signal.SELL) ∧
    ((get_trading_signal scenA 130 30).2.buy_signals < 2 →
      (get_trading_signal scenA 130 30).2.sell_signals < 2 →
      (get_trading_signal scenA 130 30).1 = none) ∧
    get_trading_signal scenA 130 30 = (some Signal.BUY, ⟨2, 3⟩) :=
  buy_precedence_and_scenarioA scenA 130 (by norm_num [scenA])

/-- C5: the per-asset store is bounded by MAX_HISTORY_ENTRIES (200) after
every append, an append preserves insertion order and evicts only the
oldest entries (the post-append store is a suffix of the pre-append store
plus the new entry), and appending 205 sequential points to an empty store
leaves exactly the most recent 200 in order (the oldest 5 evicted). -/
theorem price_store_bound_fifo :
    (∀ (history : List PriceEntry) (e : PriceEntry),
      (add_price_entry history e).length ≤ MAX_HISTORY_ENTRIES) ∧
    (∀ (history : List PriceEntry) (e : PriceEntry),
      add_price_entry history e <:+ history ++ [e]) ∧
    scenC.foldl add_price_entry [] = scenC.drop 5 := by
  refine ⟨?_, ?_, ?_⟩
  · intro history e
    rw [add_price_entry_eq_drop]
    simp only [List.length_drop]
    omega
  · intro history e
    rw [add_price_entry_eq_drop]
    exact List.drop_suffix _ _
  · rw [foldl_add_price_entry scenC [] (by simp)]
    have hs : scenC.length = 205 := by simp [scenC]
    simp only [List.nil_append, hs]
    norm_num [MAX_HISTORY_ENTRIES]

/-- C9: a non-positive transfer amount yields no forecast, whatever the
fetched rate (even an unavailable one), history and day count: the guard
`if gbp_amount <= 0: return None` fires before the rate is consulted. -/
theorem transfer_nonpositive_amount_none (amount : ℚ) (rate : Option ℚ)
    (hist : List ℚ) (days : ℕ) (h : amount ≤ 0) :
    calculate_paypal_transfer amount rate hist days = none := by
  unfold calculate_paypal_transfer
  rw [if_pos h]

/-- C9 witness: the guard at amount −5 with an available rate. -/
theorem transfer_nonpositive_amount_none_witness :
    calculate_paypal_transfer (-5) (some 60) [59, 58] 3 = none :=
  transfer_nonpositive_amount_none (-5) (some 60) [59, 58] 3 (by norm_num)

/-- C7: for positive `period`, EMA is undefined exactly when the series is
shorter than `period`, and otherwise equals the description of the spec: seed
with the SMA of the first `period` values, then fold
`ema ← price·k + ema·(1−k)`, `k = 2/(period+1)`, over the remaining values
in chronological order. -/
theorem ema_defined_iff_and_spec (prices : List ℚ) (period : ℕ)
    (_hp : 1 ≤ period) :
    (calculate_ema prices period = none ↔ prices.length < period) ∧
    (period ≤ prices.length →
      calculate_ema prices period = some (ema_spec prices period)) := by
  by_cases h : prices.length < period
  · constructor
    · simp [calculate_ema, h]
    · intro h2
      omega
  · have hlt : (prices.take period).length = period := by
      simp only [List.length_take]
      omega
    have hsma : calculate_sma (prices.take period) period
        = some ((prices.take period).sum / period) := by
      unfold calculate_sma
      rw [if_neg (by omega), sliceLast_of_length_eq hlt]
    constructor
    · simp [calculate_ema, h, hsma]
    · intro _
      simp [calculate_ema, h, hsma, ema_spec]

/-- C7 witness: the EMA characterisation on the series [2, 4, 6] with
period 2. -/
theorem ema_defined_iff_and_spec_witness :
    (calculate_ema [2, 4, 6] 2 = none ↔ ([2, 4, 6] : List ℚ).length < 2) ∧
    (2 ≤ ([2, 4, 6] : List ℚ).length →
      calculate_ema [2, 4, 6] 2 = some (ema_spec [2, 4, 6] 2)) :=
  ema_defined_iff_and_spec [2, 4, 6] 2 (by norm_num)

/-- C6: should_send_daily_notification is true exactly when the local hour
has reached the cutoff (18) and the recorded date differs from today; a
failed send leaves the recorded date unchanged; and after a successful
send no second digest is attempted on the same date. -/
theorem daily_digest_once_per_day (hour hour2 : ℕ) (today : String)
    (send_ok : Bool) (last : Option String) :
    (should_send_daily_notification hour last today = true ↔
      DAILY_NOTIFICATION_HOUR ≤ hour ∧ last ≠ some today) ∧
    (dailyDigestStep hour today false last).1 = last ∧
    ((dailyDigestStep hour today true last).2 = true →
      (dailyDigestStep hour2 today send_ok
        (dailyDigestStep hour today true last).1).2 = false) := by
  refine ⟨?_, ?_, ?_⟩
  · unfold should_send_daily_notification DAILY_NOTIFICATION_HOUR
    by_cases h1 : hour < 18
    · simp only [if_pos h1]
      constructor
      · intro hc
        exact absurd hc (by simp)
      · rintro ⟨hge, -⟩
        omega
    · by_cases h2 : last = some today
      · simp [h1, h2]
      · simp only [if_neg h1, if_neg h2]
        simp only [true_iff]
        exact ⟨by omega, h2⟩
  · unfold dailyDigestStep
    split
    · simp
    · rfl
  · intro hsent
    unfold dailyDigestStep at hsent ⊢
    by_cases hs : should_send_daily_notification hour last today = true
    · rw [if_pos hs] at hsent ⊢
      have hrec : should_send_daily_notification hour2 (some today) today
          = false := by
        unfold should_send_daily_notification
        split
        · rfl
        · rw [if_pos rfl]
      simp only [if_pos rfl]
      rw [if_neg (by simp [hrec])]
    · rw [if_neg hs] at hsent
      exact absurd hsent (by simp)

/-- C6 witness: the digest gating at hour 19 with no recorded date. -/
theorem daily_digest_once_per_day_witness :
    (should_send_daily_notification 19 none "2025-01-02" = true ↔
      DAILY_NOTIFICATION_HOUR ≤ 19 ∧
        (none : Option String) ≠ some "2025-01-02") ∧
    (dailyDigestStep 19 "2025-01-02" false none).1 = none ∧
    ((dailyDigestStep 19 "2025-01-02" true none).2 = true →
      (dailyDigestStep 20 "2025-01-02" true
        (dailyDigestStep 19 "2025-01-02" true none).1).2 = false) :=
  daily_digest_once_per_day 19 20 "2025-01-02" true none

/-- C10: a defined indicator value of exactly 0 is skipped by the truthiness
guards: a zero short or long SMA silences the MA vote, a zero support or
resistance silences the support/resistance vote (shown also on the concrete
descending series 29…0, where support 0 and resistance 19 are defined yet
contribute nothing), and a zero latest price skips the RSI flat-market
guard (the tiny-delta series ending at 0 yields RSI 100, while the same
series shifted to end at 1 yields the flat value 50). -/
theorem zero_truthiness_skips_votes :
    (∀ sma_30 : Option ℚ, maVote (some 0) sma_30 = (0, 0)) ∧
    (∀ sma_10 : Option ℚ, maVote sma_10 (some 0) = (0, 0)) ∧
    (∀ (cp : ℚ) (resistance : Option ℚ),
      srVote cp (some 0) resistance = (0, 0)) ∧
    (∀ (cp : ℚ) (support : Option ℚ), srVote cp support (some 0) = (0, 0)) ∧
    find_support_resistance sDesc 20 = (some 0, some 19) ∧
    srVote 0 (some 0) (some 19) = (0, 0) ∧
    calculate_rsi zcex 14 = some 100 ∧
    calculate_rsi z1cex 14 = some 50 := by
  refine ⟨?_, ?_, ?_, ?_, ?_, ?_, ?_, ?_⟩
  · intro s30
    cases s30 <;> simp [maVote]
  · intro s10
    cases s10 <;> simp [maVote]
  · intro cp r
    cases r <;> simp [srVote]
  · intro cp s
    cases s <;> simp [srVote]
  · norm_num [find_support_resistance, sDesc, sliceLast, listMin, listMax,
      min_def, max_def]
  · simp [srVote]
  · norm_num [calculate_rsi, rsiGains, rsiLosses, avg_gain, avg_loss,
      rsiChanges, deltas, max_abs_change, sliceLast, zcex, round2,
      roundHalfEven]
  · norm_num [calculate_rsi, rsiGains, rsiLosses, avg_gain, avg_loss,
      rsiChanges, deltas, max_abs_change, sliceLast, z1cex, round2,
      roundHalfEven]
    rw [abs_of_pos (show (0:ℚ) < 1/1000000 by norm_num)]
    norm_num

/-- C8: with an empty rate history the estimated future rate is
`current_rate · 0.98`, and scenario B (amount 1000, rate 60.00, empty
history) gives estimate 58.8, current net 59850, future net 58800,
difference 1050 and recommendation MANUAL_TRANSFER. -/
theorem transfer_empty_history_scenarioB (amount rate : ℚ) (days : ℕ)
    (h1 : 0 < amount) (h2 : rate ≠ 0) :
    (∃ d, calculate_paypal_transfer amount (some rate) [] days = some d ∧
      d.estimated_future_rate = rate * 0.98) ∧
    calculate_paypal_transfer 1000 (some 60) [] 19 =
      some { recommendation := Recommendation.MANUAL_TRANSFER
             current_rate := 60
             estimated_future_rate := 58.8
             current_value_egp := 60000
             current_value_after_tax := 59850
             future_value_egp := 58800
             future_value_after_tax := 58800
             difference := 1050 } := by
  constructor
  · have hna : ¬ (amount ≤ 0) := not_le.mpr h1
    simp only [calculate_paypal_transfer, if_neg hna, if_neg h2]
    refine ⟨_, rfl, ?_⟩
    simp
  · norm_num [calculate_paypal_transfer, estimate_future_rate,
      MANUAL_TRANSFER_TAX]

/-- C8 witness: the empty-history estimate applied at the scenario-B inputs. -/
theorem transfer_empty_history_scenarioB_witness :
    (∃ d, calculate_paypal_transfer 1000 (some 60) [] 19 = some d ∧
      d.estimated_future_rate = 60 * 0.98) ∧
    calculate_paypal_transfer 1000 (some 60) [] 19 =
      some { recommendation := Recommendation.MANUAL_TRANSFER
             current_rate := 60
             estimated_future_rate := 58.8
             current_value_egp := 60000
             current_value_after_tax := 59850
             future_value_egp := 58800
             future_value_after_tax := 58800
             difference := 1050 } :=
  transfer_empty_history_scenarioB 1000 60 19 (by norm_num) (by norm_num)

/-- C3 counterexample: on fifteen prices rising by 0.001 each step, every
one of the last 14 deltas is the gain 1/1000, yet RSI is exactly 50 (not
100): the flat-market guard fires before the all-gains case is reached. -/
theorem rsi_all_gains_counterexample :
    rsiChanges cex3 14 = List.replicate 14 (1/1000) ∧
    (0 : ℚ) < 1/1000 ∧
    calculate_rsi cex3 14 = some 50 := by
  refine ⟨?_, by norm_num, ?_⟩
  · norm_num [cex3, rsiChanges, deltas, List.replicate]
  · norm_num [cex3, calculate_rsi, rsiGains, rsiLosses, avg_gain, avg_loss,
      rsiChanges, deltas, max_abs_change, sliceLast, round2, roundHalfEven]
    rw [abs_of_pos (show (0:ℚ) < 1/1000 by norm_num),
      abs_of_pos (show (0:ℚ) < 50007/500 by norm_num)]
    norm_num

/-- C3 (amended): for positive `period` and at least `period + 1` points,
RSI is defined and lies in [0, 100]; it equals exactly 100 whenever every
delta in the window is a gain AND the flat-market guard does not fire (the
latest price is 0, or the largest absolute delta is at least 0.05% of the
latest absolute value of the latest price); and it equals exactly 50 whenever the
largest absolute delta is below 0.05% of the latest price. -/
theorem rsi_range_100_50_amended (prices : List ℚ) (period : ℕ)
    (hp : 1 ≤ period) (hlen : period + 1 ≤ prices.length) :
    ∃ r, calculate_rsi prices period = some r ∧ 0 ≤ r ∧ r ≤ 100 ∧
      ((∀ c ∈ rsiChanges prices period, 0 < c) →
        (prices.getLastD 0 = 0 ∨
          0.0005 * |prices.getLastD 0| ≤ max_abs_change prices period) →
        r = 100) ∧
      (max_abs_change prices period < 0.0005 * prices.getLastD 0 → r = 50) := by
  have hn : ¬ (prices.length < period + 1) := by omega
  have hglen : ¬ ((rsiGains prices period).length < period) := by
    simp [rsiGains, rsiChanges_length hlen]
  have hmax0 : 0 ≤ max_abs_change prices period := le_foldl_max _ 0
  by_cases hflat : prices.getLastD 0 ≠ 0 ∧
      max_abs_change prices period / |prices.getLastD 0| < 0.0005
  · refine ⟨50, ?_, by norm_num, by norm_num, ?_, fun _ => rfl⟩
    · unfold calculate_rsi
      rw [if_neg hn, if_neg hglen, if_pos hflat]
    · rintro _ (hzero | hbig)
      · exact absurd hzero hflat.1
      · exfalso
        have hpos : 0 < |prices.getLastD 0| := abs_pos.mpr hflat.1
        have := (div_lt_iff hpos).mp hflat.2
        linarith
  · by_cases hloss : avg_loss prices period = 0
    · refine ⟨100, ?_, by norm_num, by norm_num, fun _ _ => rfl, ?_⟩
      · unfold calculate_rsi
        rw [if_neg hn, if_neg hglen, if_neg hflat, if_pos hloss]
      · intro hlt
        exfalso
        apply hflat
        have hlast : 0 < prices.getLastD 0 := by nlinarith
        refine ⟨ne_of_gt hlast, ?_⟩
        rw [abs_of_pos hlast, div_lt_iff hlast]
        linarith
    · have hlossge : 0 ≤ avg_loss prices period := by
        unfold avg_loss
        apply div_nonneg _ (by positivity)
        apply List.sum_nonneg
        intro x hx
        have hx' : x ∈ rsiLosses prices period := mem_of_mem_sliceLast hx
        simp only [rsiLosses, List.mem_map] at hx'
        obtain ⟨c, -, rfl⟩ := hx'
        split
        · exact le_refl 0
        · positivity
      have hgainge : 0 ≤ avg_gain prices period := by
        unfold avg_gain
        apply div_nonneg _ (by positivity)
        apply List.sum_nonneg
        intro x hx
        have hx' : x ∈ rsiGains prices period := mem_of_mem_sliceLast hx
        simp only [rsiGains, List.mem_map] at hx'
        obtain ⟨c, -, rfl⟩ := hx'
        split
        · next hc => exact le_of_lt hc
        · exact le_refl 0
      have hlosspos : 0 < avg_loss prices period :=
        lt_of_le_of_ne hlossge (Ne.symm hloss)
      have hrs : 0 ≤ avg_gain prices period / avg_loss prices period :=
        div_nonneg hgainge hlossge
      have hdenpos : (0:ℚ) < 1 + avg_gain prices period / avg_loss prices period := by
        linarith
      have hraw0 : 0 ≤ 100 - 100 / (1 + avg_gain prices period / avg_loss prices period) := by
        have h1 : 100 / (1 + avg_gain prices period / avg_loss prices period) ≤ 100 :=
          div_le_self (by norm_num) (by linarith)
        linarith
      have hraw1 : 100 - 100 / (1 + avg_gain prices period / avg_loss prices period) < 100 := by
        have h1 : 0 < 100 / (1 + avg_gain prices period / avg_loss prices period) :=
          div_pos (by norm_num) hdenpos
        linarith
      obtain ⟨hb0, hb1⟩ := round2_bounds hraw0 hraw1
      refine ⟨_, ?_, hb0, hb1, ?_, ?_⟩
      · unfold calculate_rsi
        rw [if_neg hn, if_neg hglen, if_neg hflat, if_neg hloss]
      · intro hall _
        exfalso
        apply hloss
        unfold avg_loss
        have hzero : (sliceLast (rsiLosses prices period) period).sum = 0 := by
          apply List.sum_eq_zero
          intro x hx
          have hx' : x ∈ rsiLosses prices period := mem_of_mem_sliceLast hx
          simp only [rsiLosses, List.mem_map] at hx'
          obtain ⟨c, hc, rfl⟩ := hx'
          rw [if_pos (hall c hc)]
        rw [hzero, zero_div]
      · intro hlt
        exfalso
        apply hflat
        have hlast : 0 < prices.getLastD 0 := by nlinarith
        refine ⟨ne_of_gt hlast, ?_⟩
        rw [abs_of_pos hlast, div_lt_iff hlast]
        linarith

/-- C3 witness: the amended RSI characterisation on the strongly rising
series 1…15 (where the value is 100). -/
theorem rsi_range_100_50_amended_witness :
    ∃ r, calculate_rsi w3 14 = some r ∧ 0 ≤ r ∧ r ≤ 100 ∧
      ((∀ c ∈ rsiChanges w3 14, 0 < c) →
        (w3.getLastD 0 = 0 ∨
          0.0005 * |w3.getLastD 0| ≤ max_abs_change w3 14) →
        r = 100) ∧
      (max_abs_change w3 14 < 0.0005 * w3.getLastD 0 → r = 50) :=
  rsi_range_100_50_amended w3 14 (by norm_num) (by norm_num [w3])

/-- C4 counterexample: on thirty negative prices (support −100.001,
resistance −100) the premises of the claim hold — support and resistance are
defined, resistance > support, and the volatility ratio is below 0.005
(it is negative) — yet a BUY candidate is produced: the code also requires
a positive mid price before gating, and here the mid price is negative. -/
theorem volatility_gate_negative_mid_counterexample :
    30 ≤ cex4.length ∧
    find_support_resistance cex4 20 = (some (-100001/1000), some (-100)) ∧
    ((-100001/1000 : ℚ) < -100) ∧
    ((((-100 : ℚ)) - (-100001/1000)) / (((-100001/1000 : ℚ) + (-100)) / 2)
      < MIN_VOLATILITY) ∧
    getSignalCandidate cex4 (-100) = some Signal.BUY := by
  refine ⟨by norm_num [cex4], ?_, by norm_num, by norm_num [MIN_VOLATILITY], ?_⟩
  · norm_num [cex4, find_support_resistance, sliceLast, listMin, listMax,
      min_def, max_def]
  · have habs : |(1:ℚ)/1000| = 1/1000 := abs_of_pos (by norm_num)
    norm_num [habs, cex4, getSignalCandidate, MIN_HISTORY_FOR_SIGNALS,
      volatilityGateFires, find_support_resistance, sliceLast, listMin,
      listMax, min_def, max_def, MIN_VOLATILITY, get_trading_signal,
      tallyVotes, maVote, rsiVote, srVote, trendVote, calculate_sma,
      calculate_rsi, rsiGains, rsiLosses, avg_gain, avg_loss, rsiChanges,
      deltas, max_abs_change, analyze_trend, MIN_CONFIRMATIONS, round2,
      roundHalfEven]

/-- C4 (amended): whenever support and resistance over lookback 20 are
defined with resistance > support, the mid price `(support+resistance)/2`
is positive, and `(resistance − support) / mid < 0.005`, the tick produces
no signal candidate regardless of the votes. -/
theorem volatility_gate_amended (history : List ℚ) (cp s r : ℚ)
    (hsr : find_support_resistance history 20 = (some s, some r))
    (hrs : s < r) (hmid : 0 < (s + r) / 2)
    (hrat : (r - s) / ((s + r) / 2) < MIN_VOLATILITY) :
    getSignalCandidate history cp = none := by
  unfold getSignalCandidate
  by_cases hl : history.length < MIN_HISTORY_FOR_SIGNALS
  · rw [if_pos hl]
  · rw [if_neg hl]
    have hg : volatilityGateFires history = true := by
      unfold volatilityGateFires
      rw [hsr]
      simp only
      rw [if_pos hrs, if_pos hmid, if_pos hrat]
    rw [hg, if_pos rfl]

/-- C4 witness: the gate on a flat positive market (twenty-nine prices at
100 and one at 100.2, ratio 2/1001 < 0.005) suppresses any signal. -/
theorem volatility_gate_amended_witness :
    getSignalCandidate w4 (501/5) = none :=
  volatility_gate_amended w4 (501/5) 100 (501/5)
    (by norm_num [w4, find_support_resistance, sliceLast, listMin, listMax,
      min_def, max_def])
    (by norm_num) (by norm_num) (by norm_num [MIN_VOLATILITY])

/-- C2 counterexample: check_and_notify keeps no cooldown record, so two
ticks one second apart (far below the 6-hour window of 21600 s) both emit a
BUY for the same asset: starting from thirty stored points 100…129, the
tick at t = 30 s with price 130 emits, and the immediately following tick
at t = 31 s with price 131 emits again. -/
theorem no_cooldown_counterexample :
    (checkAndNotifyStep c2hist 30 130).2 = true ∧
    (checkAndNotifyStep (checkAndNotifyStep c2hist 30 130).1 31 131).2 = true ∧
    31 - 30 < 6 * 60 * 60 := by
  refine ⟨?_, ?_, by norm_num⟩
  · norm_num [c2hist, checkAndNotifyStep, add_price_entry,
      MAX_HISTORY_ENTRIES, get_price_history_list, getSignalCandidate,
      MIN_HISTORY_FOR_SIGNALS, volatilityGateFires, find_support_resistance,
      sliceLast, listMin, listMax, min_def, max_def, MIN_VOLATILITY,
      get_trading_signal, tallyVotes, maVote, rsiVote, srVote, trendVote,
      calculate_sma, calculate_rsi, rsiGains, rsiLosses, avg_gain, avg_loss,
      rsiChanges, deltas, max_abs_change, analyze_trend, MIN_CONFIRMATIONS,
      round2, roundHalfEven, Option.isSome]
  · norm_num [c2hist, checkAndNotifyStep, add_price_entry,
      MAX_HISTORY_ENTRIES, get_price_history_list, getSignalCandidate,
      MIN_HISTORY_FOR_SIGNALS, volatilityGateFires, find_support_resistance,
      sliceLast, listMin, listMax, min_def, max_def, MIN_VOLATILITY,
      get_trading_signal, tallyVotes, maVote, rsiVote, srVote, trendVote,
      calculate_sma, calculate_rsi, rsiGains, rsiLosses, avg_gain, avg_loss,
      rsiChanges, deltas, max_abs_change, analyze_trend, MIN_CONFIRMATIONS,
      round2, roundHalfEven, Option.isSome]

/-- C2 (amended): check_and_notify consults and updates no cooldown state:
whether it emits is independent of the timestamp of the tick (and hence of any
elapsed time since a previous emission), the only state it writes is the
appended price history, and it emits exactly when a signal candidate exists
for the updated series. -/
theorem check_and_notify_no_cooldown :
    (∀ (history : List PriceEntry) (t t' : ℕ) (p : ℚ),
      (checkAndNotifyStep history t p).2 = (checkAndNotifyStep history t' p).2) ∧
    (∀ (history : List PriceEntry) (t : ℕ) (p : ℚ),
      (checkAndNotifyStep history t p).1 = add_price_entry history ⟨t, p⟩) ∧
    (∀ (history : List PriceEntry) (t : ℕ) (p : ℚ),
      (checkAndNotifyStep history t p).2 =
        (getSignalCandidate
          (get_price_history_list (add_price_entry history ⟨t, p⟩)) p).isSome) := by
  refine ⟨?_, fun _ _ _ => rfl, fun _ _ _ => rfl⟩
  intro history t t' p
  have hmap : ∀ s : ℕ, get_price_history_list (add_price_entry history ⟨s, p⟩)
      = (history.map PriceEntry.price ++ [p]).drop
          ((history.length + 1) - MAX_HISTORY_ENTRIES) := by
    intro s
    rw [add_price_entry_eq_drop]
    unfold get_price_history_list
    rw [List.map_drop]
    simp [List.length_append]
  show (getSignalCandidate
      (get_price_history_list (add_price_entry history ⟨t, p⟩)) p).isSome =
    (getSignalCandidate
      (get_price_history_list (add_price_entry history ⟨t', p⟩)) p).isSome
  rw [hmap t, hmap t']

end Finansly
